import Mathlib

/-!
Shallow embedding of src/intake_markdown/intake_markdown.py.

The module defines a Markdown value object (wrapping a markdown string,
optional base URL, pre/post fragments, extension and formatter options),
a MarkdownSource adapter (file resolution, schema, partitions, read), and
a get_file helper with scoped handle acquisition.

External collaborators (fsspec.open_files, the markdown converter,
Pygments, BeautifulSoup, the intake cache) are held abstract: file
resolution is a Resolver argument, the markdown conversion an opaque
function argument, and a files result of a read is the stored
readResult of an OpenFile. Python exceptions are modelled as Except.
-/

namespace IntakeMd

/-- Python exception values relevant to this module. -/
inductive PyError where
  | nameError : String → PyError
  | indexError : Int → PyError
  | typeError : String → PyError
  | ioError : String → PyError
deriving DecidableEq

/-- Python values appearing in the keyword-argument and metadata
mappings of this module. -/
inductive PyVal where
  | str : String → PyVal
  | strList : List String → PyVal
  | dict : List (String × String) → PyVal
  | pyNone : PyVal
deriving DecidableEq

/-- The Markdown value object (class `Markdown`, lines 7-44): raw data,
optional base URL (`self.url`, from the `urlpath` argument), markdown
extensions and their configs, pre/post fragments, the options the
Pygments formatter was built from, and extra css. -/
structure Markdown where
  data : String
  url : Option String
  extensions : List String
  extension_configs : List (String × String)
  pre : String
  post : String
  formatter_options : List (String × String)
  extra_css : String
deriving DecidableEq

/-- Default of the `extensions` parameter (line 8). -/
def defaultExtensions : List String := ["fenced_code", "codehilite", "md_in_html"]

/-- Default of the `formatter_options` parameter (lines 11-12). -/
def defaultFormatterOptions : List (String × String) :=
  [("cssclass", "codehilite"), ("style", "default")]

/-- `Markdown(data)` called with one positional argument: every other
parameter takes its default (urlpath=None, pre="", post="", ...). -/
def markdownCall1 (d : String) : Markdown :=
  { data := d, url := none, extensions := defaultExtensions, extension_configs := [],
    pre := "", post := "", formatter_options := defaultFormatterOptions, extra_css := "" }

/-- `get_markdown` (lines 46-47): `self.pre + self.data + self.post`. -/
def Markdown.get_markdown (m : Markdown) : String :=
  m.pre ++ m.data ++ m.post

/-- Names bound at module level of intake_markdown.py: the four imports
and the three definitions. The name `urlpath` is not among them. -/
def moduleGlobalNames : List String :=
  ["DataSource", "Schema", "markdown", "HtmlFormatter", "BeautifulSoup", "urljoin",
   "Markdown", "MarkdownSource", "get_file"]

/-- Python name resolution for a bare name inside a method body with no
matching local binding: global scope, then builtins; an unbound name
raises NameError. -/
def lookupGlobal (n : String) : Except PyError Unit :=
  if moduleGlobalNames.contains n then Except.ok () else Except.error (PyError.nameError n)

/-- `_repr_html_` (lines 49-61). `styleDefs` stands for the string the
Pygments formatter returns from `get_style_defs()`; `convert` for the
external `markdown(...)` call on the composed text, extensions and
extension configs. After computing the style block and the converted
HTML (and parsing it with BeautifulSoup, a no-op at this level), line 54
evaluates the bare name `urlpath`, which is neither a local of the
method nor a module global nor a builtin; the branch that would rewrite
img src and anchor href attributes sits behind that evaluation and is
never reached. -/
def Markdown._repr_html_ (styleDefs : String)
    (convert : String → List String → List (String × String) → String)
    (m : Markdown) : Except PyError String :=
  let style_html := "<style>\n" ++ styleDefs ++ "\n" ++ m.extra_css ++ "\n</style>\n"
  let html := convert (Markdown.get_markdown m) m.extensions m.extension_configs
  match lookupGlobal "urlpath" with
  | Except.error e => Except.error e
  | Except.ok _ =>
    -- unreachable: rewriting of img src / anchor href would happen here
    Except.ok (style_html ++ html)

/-- One openable file handle as produced by fsspec.open_files; reading
it yields its full text, or raises (e.g. permission or decode errors). -/
structure OpenFile where
  readResult : Except PyError String

/-- Events on a file handle, for stating the scoped-acquisition
contract of `get_file`. -/
inductive FEvent where
  | evOpen
  | evRead
  | evClose
deriving DecidableEq

/-- The `with f as f:` statement: `__enter__` opens the handle before
the body runs and `__exit__` closes it on every exit path, whether the
body returns or raises. -/
def pyWith (body : Except PyError String × List FEvent) :
    Except PyError String × List FEvent :=
  (body.1, FEvent.evOpen :: body.2 ++ [FEvent.evClose])

/-- `f.read()` inside the with block: the handle's read outcome. -/
def OpenFile.readFull (f : OpenFile) : Except PyError String × List FEvent :=
  (f.readResult, [FEvent.evRead])

/-- `get_file` (lines 138-142): scoped acquisition around a full read. -/
def get_file (f : OpenFile) : Except PyError String × List FEvent :=
  pyWith (OpenFile.readFull f)

/-- Intake schema record, as built at lines 122-125: dtype None, shape
(None,), npartitions, and the extra metadata mapping. -/
structure Schema where
  dtype : Option String
  shape : List (Option Nat)
  npartitions : Nat
  extra_metadata : List (String × PyVal)

/-- The MarkdownSource adapter state (class `MarkdownSource`). `_files`
is the cached handle list (None until resolved); `npartitions` is set
alongside it (modelled as 0 before resolution). The urlpath is modelled
as a single location string (the list form is not exercised here). -/
structure MarkdownSource where
  _urlpath : String
  encoding : String
  compression : Option String
  metadata : List (String × PyVal)
  md_kwargs : List (String × PyVal)
  storage_options : List (String × PyVal)
  _files : Option (List OpenFile)
  npartitions : Nat

/-- `MarkdownSource.__init__` (lines 77-109): stores the arguments,
leaves `_files` unset; the base class stores `metadata or {}`. -/
def MarkdownSource.init (urlpath text_encoding : String) (compression : Option String)
    (metadata : Option (List (String × PyVal)))
    (md_kwargs storage_options : List (String × PyVal)) : MarkdownSource :=
  { _urlpath := urlpath, encoding := text_encoding, compression := compression,
    metadata := metadata.getD [], md_kwargs := md_kwargs,
    storage_options := storage_options, _files := none, npartitions := 0 }

/-- The external resolution step of `_get_schema` (lines 115-120):
`open_files(self._get_cache(self._urlpath)[0], mode, encoding,
compression, **storage_options)`. Both `_get_cache` (which returns the
urlpath unchanged for an uncached source) and `fsspec.open_files` are
external; a Resolver stands for their composition, applied to the
urlpath, encoding, compression and storage options. -/
def Resolver : Type :=
  String → String → Option String → List (String × PyVal) → List OpenFile

/-- The `if self._files is None:` block of `_get_schema` (lines
113-121): resolve once, cache the handle list and record its length as
the partition count; do nothing when already resolved. -/
def MarkdownSource.resolveFiles (resolve : Resolver) (s : MarkdownSource) :
    MarkdownSource :=
  match s._files with
  | none =>
    { s with
      _files := some (resolve s._urlpath s.encoding s.compression s.storage_options),
      npartitions := (resolve s._urlpath s.encoding s.compression s.storage_options).length }
  | some _ => s

/-- `_get_schema` (lines 111-125): cache-or-keep the handle list, then
return the Schema record together with the (possibly updated) adapter
state. -/
def MarkdownSource._get_schema (resolve : Resolver) (s : MarkdownSource) :
    Schema × MarkdownSource :=
  let s1 := MarkdownSource.resolveFiles resolve s
  ({ dtype := none, shape := [none], npartitions := s1.npartitions,
     extra_metadata := s1.metadata }, s1)

/-- Python list indexing `l[i]`: non-negative indices from the front,
indices in [-len, -1] from the back, anything else raises IndexError
(modelled as `none`). -/
def pyIndex {α : Type} (l : List α) (i : Int) : Option α :=
  if 0 ≤ i then l.get? i.toNat
  else if 0 ≤ i + l.length then l.get? (i + l.length).toNat
  else none

/-- `_get_partition` (lines 127-128): `Markdown(get_file(self._files[i]))`.
Indexing an unresolved `_files` (None) raises TypeError; an out-of-range
index raises IndexError from the list; otherwise the single handle is
read via `get_file` and a Markdown is built from that string alone, all
other constructor parameters at their defaults. -/
def MarkdownSource._get_partition (s : MarkdownSource) (i : Int) :
    Except PyError Markdown :=
  match s._files with
  | none => Except.error (PyError.typeError "NoneType object is not subscriptable")
  | some fs =>
    match pyIndex fs i with
    | none => Except.error (PyError.indexError i)
    | some f =>
      match (get_file f).1 with
      | Except.ok d => Except.ok (markdownCall1 d)
      | Except.error e => Except.error e

/-- Modelled from the spec: the public `get_partition` wrapper lives in
the host cataloging framework base class, which is not under src/. Per
the spec it "requires resolve_schema() semantics to have run (resolves
lazily if not)" and "requesting a partition index outside
[0, partition_count) fails with an out-of-bounds/index error"; the
in-range index is then handed to `_get_partition` (lines 127-128). -/
def MarkdownSource.get_partition (resolve : Resolver) (s : MarkdownSource) (i : Int) :
    Except PyError Markdown × MarkdownSource :=
  let s1 := (MarkdownSource._get_schema resolve s).2
  if i < 0 ∨ (s1.npartitions : Int) ≤ i then
    (Except.error (PyError.indexError i), s1)
  else
    (MarkdownSource._get_partition s1 i, s1)

/-- Parameter names of `Markdown.__init__` that remain free after the
two positional arguments `data` and `urlpath` are bound (line 134). -/
def mdOptNames : List String :=
  ["extensions", "extension_configs", "pre", "post", "formatter_options", "extra_css"]

/-- CPython keyword binding for the call `Markdown(string, self._urlpath,
**self.md_kwargs)`: each keyword is checked in mapping order; a key
already bound positionally raises a multiple-values TypeError, a key
matching no parameter raises an unexpected-keyword TypeError. -/
def checkKwargs : List (String × PyVal) → Except PyError Unit
  | [] => Except.ok ()
  | (k, _) :: rest =>
    if k = "data" ∨ k = "urlpath" then
      Except.error (PyError.typeError ("got multiple values for argument " ++ k))
    else if k ∈ mdOptNames then checkKwargs rest
    else Except.error (PyError.typeError ("unexpected keyword argument " ++ k))

/-- Extract a string-valued keyword, falling back to the default of the
parameter. A value of the wrong shape is rejected here (a modelling
choice: Python would fail later when the value is used). -/
def getStrKw (kwargs : List (String × PyVal)) (k d : String) : Except PyError String :=
  match kwargs.lookup k with
  | none => Except.ok d
  | some (PyVal.str s) => Except.ok s
  | some _ => Except.error (PyError.typeError ("wrong value type for " ++ k))

/-- Extract a list-of-strings keyword with default. -/
def getStrListKw (kwargs : List (String × PyVal)) (k : String) (d : List String) :
    Except PyError (List String) :=
  match kwargs.lookup k with
  | none => Except.ok d
  | some (PyVal.strList l) => Except.ok l
  | some _ => Except.error (PyError.typeError ("wrong value type for " ++ k))

/-- Extract a mapping-valued keyword with default. -/
def getMapKw (kwargs : List (String × PyVal)) (k : String) (d : List (String × String)) :
    Except PyError (List (String × String)) :=
  match kwargs.lookup k with
  | none => Except.ok d
  | some (PyVal.dict m) => Except.ok m
  | some _ => Except.error (PyError.typeError ("wrong value type for " ++ k))

/-- The optional parameters of `Markdown.__init__` as bound from a
keyword mapping. -/
structure MdOpts where
  extensions : List String
  extension_configs : List (String × String)
  pre : String
  post : String
  formatter_options : List (String × String)
  extra_css : String
deriving DecidableEq

/-- Bind every optional parameter of `Markdown.__init__` from the
keyword mapping, each falling back to its default (line 8-13). -/
def bindMdOpts (kwargs : List (String × PyVal)) : Except PyError MdOpts :=
  match getStrListKw kwargs "extensions" defaultExtensions with
  | Except.error e => Except.error e
  | Except.ok exts =>
    match getMapKw kwargs "extension_configs" [] with
    | Except.error e => Except.error e
    | Except.ok cfgs =>
      match getStrKw kwargs "pre" "" with
      | Except.error e => Except.error e
      | Except.ok p =>
        match getStrKw kwargs "post" "" with
        | Except.error e => Except.error e
        | Except.ok q =>
          match getMapKw kwargs "formatter_options" defaultFormatterOptions with
          | Except.error e => Except.error e
          | Except.ok fo =>
            match getStrKw kwargs "extra_css" "" with
            | Except.error e => Except.error e
            | Except.ok ec =>
              Except.ok { extensions := exts, extension_configs := cfgs, pre := p,
                          post := q, formatter_options := fo, extra_css := ec }

/-- Assemble the Markdown object from the two positional arguments and
the bound optional parameters. -/
def buildMarkdown (d u : String) (o : MdOpts) : Markdown :=
  { data := d, url := some u, extensions := o.extensions,
    extension_configs := o.extension_configs, pre := o.pre, post := o.post,
    formatter_options := o.formatter_options, extra_css := o.extra_css }

/-- The full call `Markdown(string, self._urlpath, **self.md_kwargs)` at
line 134: keyword binding, then construction. -/
def markdownCall2 (d u : String) (kwargs : List (String × PyVal)) :
    Except PyError Markdown :=
  match checkKwargs kwargs with
  | Except.error e => Except.error e
  | Except.ok _ =>
    match bindMdOpts kwargs with
    | Except.error e => Except.error e
    | Except.ok o => Except.ok (buildMarkdown d u o)

/-- `[get_file(f) for f in self._files]` (line 132): read every handle in
order; the first raising read aborts the comprehension with its error. -/
def readFiles : List OpenFile → Except PyError (List String)
  | [] => Except.ok []
  | f :: rest =>
    match (get_file f).1 with
    | Except.error e => Except.error e
    | Except.ok d =>
      match readFiles rest with
      | Except.error e => Except.error e
      | Except.ok ds => Except.ok (d :: ds)

/-- `read` (lines 130-135): resolve the schema, read every file in
resolution order, join with the empty separator, and construct one
Markdown from the joined string, the urlpath, and the md_kwargs. -/
def MarkdownSource.read (resolve : Resolver) (s : MarkdownSource) :
    Except PyError Markdown × MarkdownSource :=
  let s1 := (MarkdownSource._get_schema resolve s).2
  match s1._files with
  | none => (Except.error (PyError.typeError "NoneType object is not iterable"), s1)
  | some fs =>
    match readFiles fs with
    | Except.error e => (Except.error e, s1)
    | Except.ok ds =>
      (markdownCall2 (String.join ds) s1._urlpath s1.md_kwargs, s1)

/-! Concrete sample inputs used by the witness theorems. -/

/-- A handle whose read succeeds with "alpha". -/
def wFile1 : OpenFile := { readResult := Except.ok "alpha" }

/-- A handle whose read succeeds with "beta". -/
def wFile2 : OpenFile := { readResult := Except.ok "beta" }

/-- A resolver matching zero files. -/
def wRes0 : Resolver := fun _ _ _ _ => []

/-- A resolver matching the two sample handles. -/
def wRes12 : Resolver := fun _ _ _ _ => [wFile1, wFile2]

/-- A freshly constructed adapter (nothing resolved yet). -/
def wSrcFresh : MarkdownSource :=
  MarkdownSource.init "memory://docs" "utf8" none none [] []

/-- The fresh adapter after the two sample handles were resolved. -/
def wSrcResolved : MarkdownSource :=
  { wSrcFresh with _files := some [wFile1, wFile2], npartitions := 2 }

/-- A resolved adapter whose md_kwargs carry the key "urlpath". -/
def wSrcKw : MarkdownSource :=
  { wSrcResolved with md_kwargs := [("urlpath", PyVal.str "https://example.com/")] }

/-- The optional Markdown parameters at their defaults. -/
def wOpts : MdOpts :=
  { extensions := defaultExtensions, extension_configs := [], pre := "", post := "",
    formatter_options := defaultFormatterOptions, extra_css := "" }

/-! Helper lemmas shared by the claim theorems. -/

/-- The result component of `get_file` is the read outcome of the handle. -/
theorem get_file_fst (f : OpenFile) : (get_file f).1 = f.readResult := rfl

/-- Resolution is skipped on an already-resolved adapter. -/
theorem resolveFiles_resolved (r : Resolver) (s : MarkdownSource) (fs : List OpenFile)
    (h : s._files = some fs) : MarkdownSource.resolveFiles r s = s := by
  simp [MarkdownSource.resolveFiles, h]

/-- `_get_schema` on a resolved adapter returns the stored counts and
leaves the state untouched. -/
theorem get_schema_resolved_eq (r : Resolver) (s : MarkdownSource) (fs : List OpenFile)
    (h : s._files = some fs) :
    MarkdownSource._get_schema r s =
      ({ dtype := none, shape := [none], npartitions := s.npartitions,
         extra_metadata := s.metadata }, s) := by
  simp [MarkdownSource._get_schema, resolveFiles_resolved r s fs h]

/-- When every handle reads successfully, the read comprehension
returns exactly the list of contents, in order. -/
theorem readFiles_ok : ∀ (fs : List OpenFile) (cs : List String),
    fs.map OpenFile.readResult = cs.map Except.ok → readFiles fs = Except.ok cs
  | [], [], _ => rfl
  | [], _ :: _, h => by simp at h
  | _ :: _, [], h => by simp at h
  | f :: fs, c :: cs, h => by
    simp only [List.map_cons, List.cons.injEq] at h
    simp [readFiles, get_file, pyWith, OpenFile.readFull, h.1, readFiles_ok fs cs h.2]

/-- Keyword binding fails with the multiple-values TypeError for
`urlpath` whenever the mapping holds that key and every other key is a
valid optional parameter name. -/
theorem checkKwargs_dup : ∀ (kwargs : List (String × PyVal)),
    (kwargs.lookup "urlpath").isSome = true →
    (∀ kv ∈ kwargs, kv.1 = "urlpath" ∨ kv.1 ∈ mdOptNames) →
    checkKwargs kwargs =
      Except.error (PyError.typeError "got multiple values for argument urlpath")
  | [], h, _ => by simp [List.lookup] at h
  | (k, v) :: rest, h, hks => by
    by_cases hk : k = "urlpath"
    · subst hk
      simp [checkKwargs]
    · have hmem : k ∈ mdOptNames := by
        rcases hks (k, v) (List.mem_cons_self _ _) with h1 | h1
        · exact absurd h1 hk
        · exact h1
      have hnotdata : ¬(k = "data" ∨ k = "urlpath") := by
        rintro (h2 | h2)
        · subst h2
          revert hmem
          decide
        · exact hk h2
      have hlk : (rest.lookup "urlpath").isSome = true := by
        have hne : ("urlpath" == k) = false := by
          simp [hk]
          exact fun h3 => hk h3.symm
        simpa [List.lookup, hne] using h
      rw [checkKwargs, if_neg hnotdata, if_pos hmem]
      exact checkKwargs_dup rest hlk fun kv hkv => hks kv (List.mem_cons_of_mem _ hkv)

/-- The two sample handles both read successfully. -/
theorem wReadablePair : ∀ f ∈ [wFile1, wFile2], ∃ c, f.readResult = Except.ok c := by
  intro f hf
  rcases List.mem_cons.mp hf with h | h
  · exact ⟨"alpha", by rw [h]; rfl⟩
  · rcases List.mem_cons.mp h with h2 | h2
    · exact ⟨"beta", by rw [h2]; rfl⟩
    · exact absurd h2 (List.not_mem_nil f)

/-! Claim theorems. -/

/-- C1: the claim fails on the code. `_repr_html_` evaluates the bare
name `urlpath` (line 54), which is bound in no enclosing scope — the
attribute is `self.url` — so every call raises NameError before either
the rewriting branch (base URL set) or the unmodified return (base URL
unset) can be reached, for every Document and every converter. -/
theorem repr_html_raises_nameError (styleDefs : String)
    (convert : String → List String → List (String × String) → String)
    (m : Markdown) :
    Markdown._repr_html_ styleDefs convert m =
      Except.error (PyError.nameError "urlpath") := rfl

/-- C8: `get_file` performs scoped acquisition: its result is exactly
the read outcome of the handle (the content on success, the propagated
error on failure), and on every exit path the event trace opens the
handle, attempts the read, and closes the handle afterwards. -/
theorem get_file_scoped_close (f : OpenFile) :
    (get_file f).1 = f.readResult ∧
    (get_file f).2 = [FEvent.evOpen, FEvent.evRead, FEvent.evClose] :=
  ⟨rfl, rfl⟩

/-- C9: `get_markdown` (the composed-text accessor) returns exactly
pre ++ data ++ post for all strings, including empty ones; it is a pure
function of the Document value, so it is deterministic and mutates
nothing. -/
theorem get_markdown_is_pre_data_post (m : Markdown) :
    Markdown.get_markdown m = m.pre ++ m.data ++ m.post := rfl

/-- C4: `_get_schema` is idempotent. On a fresh adapter it resolves the
urlpath to the handle list and records its length as the partition
count; the returned schema has dtype None, shape (None,), that count,
and the metadata supplied at construction; and a second call — even
with a different resolver — returns the identical schema and state
without re-resolving. -/
theorem get_schema_idempotent (resolve resolve2 : Resolver) (s : MarkdownSource)
    (h : s._files = none) :
    (MarkdownSource._get_schema resolve s).1.dtype = none ∧
    (MarkdownSource._get_schema resolve s).1.shape = [none] ∧
    (MarkdownSource._get_schema resolve s).1.npartitions =
      (resolve s._urlpath s.encoding s.compression s.storage_options).length ∧
    (MarkdownSource._get_schema resolve s).1.extra_metadata = s.metadata ∧
    (MarkdownSource._get_schema resolve s).2._files =
      some (resolve s._urlpath s.encoding s.compression s.storage_options) ∧
    MarkdownSource._get_schema resolve2 (MarkdownSource._get_schema resolve s).2 =
      MarkdownSource._get_schema resolve s := by
  have h2 : (MarkdownSource._get_schema resolve s).2 =
      { s with
        _files := some (resolve s._urlpath s.encoding s.compression s.storage_options),
        npartitions :=
          (resolve s._urlpath s.encoding s.compression s.storage_options).length } := by
    simp [MarkdownSource._get_schema, MarkdownSource.resolveFiles, h]
  refine ⟨?_, ?_, ?_, ?_, ?_, ?_⟩
  · rfl
  · rfl
  · simp [MarkdownSource._get_schema, MarkdownSource.resolveFiles, h]
  · simp [MarkdownSource._get_schema, MarkdownSource.resolveFiles, h]
  · rw [h2]
  · rw [h2, get_schema_resolved_eq resolve2 _ _ rfl]
    simp [MarkdownSource._get_schema, MarkdownSource.resolveFiles, h]

/-- Witness for C4 at the concrete fresh adapter and two distinct
resolvers. -/
theorem get_schema_idempotent_witness :
    (MarkdownSource._get_schema wRes12 wSrcFresh).1.dtype = none ∧
    (MarkdownSource._get_schema wRes12 wSrcFresh).1.shape = [none] ∧
    (MarkdownSource._get_schema wRes12 wSrcFresh).1.npartitions =
      (wRes12 wSrcFresh._urlpath wSrcFresh.encoding wSrcFresh.compression
        wSrcFresh.storage_options).length ∧
    (MarkdownSource._get_schema wRes12 wSrcFresh).1.extra_metadata = wSrcFresh.metadata ∧
    (MarkdownSource._get_schema wRes12 wSrcFresh).2._files =
      some (wRes12 wSrcFresh._urlpath wSrcFresh.encoding wSrcFresh.compression
        wSrcFresh.storage_options) ∧
    MarkdownSource._get_schema wRes0 (MarkdownSource._get_schema wRes12 wSrcFresh).2 =
      MarkdownSource._get_schema wRes12 wSrcFresh :=
  get_schema_idempotent wRes12 wRes0 wSrcFresh rfl

/-- C2: on an adapter with N resolved (and readable) files, the public
`get_partition` fails with an IndexError for every integer index
outside [0, N) — negative indices included — and succeeds for every
index inside the range. -/
theorem get_partition_index_bounds (resolve : Resolver) (s : MarkdownSource)
    (fs : List OpenFile) (i : Int)
    (hf : s._files = some fs) (hn : s.npartitions = fs.length)
    (hr : ∀ f ∈ fs, ∃ c, f.readResult = Except.ok c) :
    ((i < 0 ∨ (fs.length : Int) ≤ i) →
      (MarkdownSource.get_partition resolve s i).1 =
        Except.error (PyError.indexError i)) ∧
    ((0 ≤ i ∧ i < (fs.length : Int)) →
      ∃ md, (MarkdownSource.get_partition resolve s i).1 = Except.ok md) := by
  have hs : (MarkdownSource._get_schema resolve s).2 = s :=
    congrArg Prod.snd (get_schema_resolved_eq resolve s fs hf)
  constructor
  · intro hout
    have hc : i < 0 ∨ (s.npartitions : Int) ≤ i := by rw [hn]; exact hout
    simp only [MarkdownSource.get_partition, hs]
    rw [if_pos hc]
  · rintro ⟨h0, hlt⟩
    have hc : ¬(i < 0 ∨ (s.npartitions : Int) ≤ i) := by rw [hn]; omega
    simp only [MarkdownSource.get_partition, hs]
    rw [if_neg hc]
    have hidx : pyIndex fs i = fs.get? i.toNat := by
      simp [pyIndex, h0]
    have hlen : i.toNat < fs.length := by omega
    obtain ⟨fl, hfl⟩ : ∃ fl, fs[i.toNat]? = some fl := by
      rw [List.getElem?_eq_getElem hlen]
      exact ⟨_, rfl⟩
    obtain ⟨c, hc2⟩ := hr fl (List.getElem?_mem hfl)
    refine ⟨markdownCall1 c, ?_⟩
    simp [MarkdownSource._get_partition, hf, hidx, hfl, get_file_fst, hc2]

/-- Witness for C2: with two resolved files, index 2 raises IndexError
and index 0 succeeds. -/
theorem get_partition_index_bounds_witness :
    (MarkdownSource.get_partition wRes0 wSrcResolved 2).1 =
      Except.error (PyError.indexError 2) ∧
    (∃ md, (MarkdownSource.get_partition wRes0 wSrcResolved 0).1 = Except.ok md) := by
  constructor
  · exact (get_partition_index_bounds wRes0 wSrcResolved [wFile1, wFile2] 2 rfl rfl
      wReadablePair).1 (by decide)
  · exact (get_partition_index_bounds wRes0 wSrcResolved [wFile1, wFile2] 0 rfl rfl
      wReadablePair).2 ⟨by decide, by decide⟩

/-- C5: for a valid zero-based index into the resolved handle list,
`_get_partition` returns a Document built from the i-th file content
alone: its data is that content, its base URL is None, its pre/post
fragments are empty and every other constructor parameter is at its
default — no md_kwargs are forwarded; and `read` leaves the resolved
state untouched, so the result is independent of previous `read` or
partition accesses. -/
theorem get_partition_single_file_document (resolve : Resolver) (s : MarkdownSource)
    (fs : List OpenFile) (i : Nat) (fl : OpenFile) (c : String)
    (hf : s._files = some fs)
    (hg : fs[i]? = some fl)
    (hc : fl.readResult = Except.ok c) :
    MarkdownSource._get_partition s (i : Int) = Except.ok (markdownCall1 c) ∧
    (markdownCall1 c).data = c ∧
    (markdownCall1 c).url = none ∧
    (markdownCall1 c).pre = "" ∧
    (markdownCall1 c).post = "" ∧
    (markdownCall1 c).extensions = defaultExtensions ∧
    (markdownCall1 c).extension_configs = [] ∧
    (markdownCall1 c).formatter_options = defaultFormatterOptions ∧
    (markdownCall1 c).extra_css = "" ∧
    (MarkdownSource.read resolve s).2 = s := by
  have hidx : pyIndex fs (i : Int) = some fl := by
    simp [pyIndex, hg]
  refine ⟨?_, rfl, rfl, rfl, rfl, rfl, rfl, rfl, rfl, ?_⟩
  · simp [MarkdownSource._get_partition, hf, hidx, get_file_fst, hc]
  · have hs : (MarkdownSource._get_schema resolve s).2 = s :=
      congrArg Prod.snd (get_schema_resolved_eq resolve s fs hf)
    simp only [MarkdownSource.read, hs, hf]
    split <;> rfl

/-- Witness for C5 at index 1 of the two resolved sample files. -/
theorem get_partition_single_file_document_witness :
    MarkdownSource._get_partition wSrcResolved ((1 : Nat) : Int) =
      Except.ok (markdownCall1 "beta") ∧
    (markdownCall1 "beta").data = "beta" ∧
    (markdownCall1 "beta").url = none ∧
    (markdownCall1 "beta").pre = "" ∧
    (markdownCall1 "beta").post = "" ∧
    (markdownCall1 "beta").extensions = defaultExtensions ∧
    (markdownCall1 "beta").extension_configs = [] ∧
    (markdownCall1 "beta").formatter_options = defaultFormatterOptions ∧
    (markdownCall1 "beta").extra_css = "" ∧
    (MarkdownSource.read wRes0 wSrcResolved).2 = wSrcResolved :=
  get_partition_single_file_document wRes0 wSrcResolved [wFile1, wFile2] 1 wFile2
    "beta" rfl rfl rfl

/-- C6: on an adapter whose handle list is not yet resolved, the public
`get_partition` performs the schema-resolution semantics itself before
opening the i-th handle: a valid index succeeds with the i-th file
content even though `_get_schema` was never called explicitly, and the
post-call state carries the resolved handle list. -/
theorem get_partition_resolves_lazily (resolve : Resolver) (s : MarkdownSource)
    (i : Nat) (fl : OpenFile) (c : String)
    (h0 : s._files = none)
    (hg : (resolve s._urlpath s.encoding s.compression s.storage_options)[i]? =
      some fl)
    (hc : fl.readResult = Except.ok c) :
    (MarkdownSource.get_partition resolve s (i : Int)).1 =
      Except.ok (markdownCall1 c) ∧
    (MarkdownSource.get_partition resolve s (i : Int)).2._files =
      some (resolve s._urlpath s.encoding s.compression s.storage_options) := by
  have hlen : i < (resolve s._urlpath s.encoding s.compression s.storage_options).length := by
    obtain ⟨h, -⟩ := List.getElem?_eq_some_iff.mp hg
    exact h
  have hnp : (MarkdownSource._get_schema resolve s).2.npartitions =
      (resolve s._urlpath s.encoding s.compression s.storage_options).length := by
    simp [MarkdownSource._get_schema, MarkdownSource.resolveFiles, h0]
  have hfi : (MarkdownSource._get_schema resolve s).2._files =
      some (resolve s._urlpath s.encoding s.compression s.storage_options) := by
    simp [MarkdownSource._get_schema, MarkdownSource.resolveFiles, h0]
  have hcond : ¬((i : Int) < 0 ∨
      (((resolve s._urlpath s.encoding s.compression s.storage_options).length : Nat) :
        Int) ≤ (i : Int)) := by
    omega
  have hidx : pyIndex (resolve s._urlpath s.encoding s.compression s.storage_options)
      (i : Int) = some fl := by
    simp [pyIndex, hg]
  constructor
  · simp only [MarkdownSource.get_partition, hnp]
    rw [if_neg hcond]
    simp [MarkdownSource._get_partition, hfi, hidx, get_file_fst, hc]
  · simp only [MarkdownSource.get_partition, hnp]
    rw [if_neg hcond]
    exact hfi

/-- Witness for C6: a fresh adapter, never resolved, serves partition 0
of the two-file resolver. -/
theorem get_partition_resolves_lazily_witness :
    (MarkdownSource.get_partition wRes12 wSrcFresh ((0 : Nat) : Int)).1 =
      Except.ok (markdownCall1 "alpha") ∧
    (MarkdownSource.get_partition wRes12 wSrcFresh ((0 : Nat) : Int)).2._files =
      some (wRes12 wSrcFresh._urlpath wSrcFresh.encoding wSrcFresh.compression
        wSrcFresh.storage_options) :=
  get_partition_resolves_lazily wRes12 wSrcFresh 0 wFile1 "alpha" rfl rfl rfl

/-- C3: for resolved files whose contents are [a, b, c, ...], `read`
returns a Document whose data — and, under the default empty pre/post,
whose composed text — is the concatenation of the contents in
resolution order with no separator, whose base URL is the adapter
urlpath, and whose remaining fields are exactly the options bound from
the configured md_kwargs. -/
theorem read_concatenates_in_order (resolve : Resolver) (s : MarkdownSource)
    (fs : List OpenFile) (cs : List String) (o : MdOpts)
    (hf : s._files = some fs)
    (hr : fs.map OpenFile.readResult = cs.map Except.ok)
    (hchk : checkKwargs s.md_kwargs = Except.ok ())
    (hbnd : bindMdOpts s.md_kwargs = Except.ok o)
    (hpre : o.pre = "") (hpost : o.post = "") :
    (MarkdownSource.read resolve s).1 =
      Except.ok (buildMarkdown (String.join cs) s._urlpath o) ∧
    (buildMarkdown (String.join cs) s._urlpath o).data = String.join cs ∧
    (buildMarkdown (String.join cs) s._urlpath o).url = some s._urlpath ∧
    Markdown.get_markdown (buildMarkdown (String.join cs) s._urlpath o) =
      String.join cs := by
  have hs : (MarkdownSource._get_schema resolve s).2 = s :=
    congrArg Prod.snd (get_schema_resolved_eq resolve s fs hf)
  refine ⟨?_, rfl, rfl, ?_⟩
  · simp [MarkdownSource.read, hs, hf, readFiles_ok fs cs hr, markdownCall2, hchk, hbnd]
  · simp [Markdown.get_markdown, buildMarkdown, hpre, hpost]

/-- Witness for C3: reading the two sample files concatenates "alpha"
and "beta" with no separator under empty md_kwargs. -/
theorem read_concatenates_in_order_witness :
    (MarkdownSource.read wRes0 wSrcResolved).1 =
      Except.ok (buildMarkdown (String.join ["alpha", "beta"])
        wSrcResolved._urlpath wOpts) ∧
    (buildMarkdown (String.join ["alpha", "beta"]) wSrcResolved._urlpath wOpts).data =
      String.join ["alpha", "beta"] ∧
    (buildMarkdown (String.join ["alpha", "beta"]) wSrcResolved._urlpath wOpts).url =
      some wSrcResolved._urlpath ∧
    Markdown.get_markdown
      (buildMarkdown (String.join ["alpha", "beta"]) wSrcResolved._urlpath wOpts) =
      String.join ["alpha", "beta"] :=
  read_concatenates_in_order wRes0 wSrcResolved [wFile1, wFile2] ["alpha", "beta"]
    wOpts rfl rfl rfl rfl rfl rfl

/-- C7: a target location matching zero files still resolves: the
schema reports partition count 0 with an empty cached handle list, and
a subsequent `read` (default empty md_kwargs) succeeds with a Document
whose composed text is the empty string. -/
theorem empty_match_schema_and_read (resolve : Resolver) (s : MarkdownSource)
    (h0 : s._files = none)
    (hres : resolve s._urlpath s.encoding s.compression s.storage_options = [])
    (hkw : s.md_kwargs = []) :
    (MarkdownSource._get_schema resolve s).1.npartitions = 0 ∧
    (MarkdownSource._get_schema resolve s).2._files = some [] ∧
    ∃ md, (MarkdownSource.read resolve s).1 = Except.ok md ∧
      Markdown.get_markdown md = "" := by
  refine ⟨?_, ?_, ?_⟩
  · simp [MarkdownSource._get_schema, MarkdownSource.resolveFiles, h0, hres]
  · simp [MarkdownSource._get_schema, MarkdownSource.resolveFiles, h0, hres]
  · refine ⟨buildMarkdown "" s._urlpath
      { extensions := defaultExtensions, extension_configs := [], pre := "",
        post := "", formatter_options := defaultFormatterOptions, extra_css := "" },
      ?_, ?_⟩
    · simp [MarkdownSource.read, MarkdownSource._get_schema,
        MarkdownSource.resolveFiles, h0, hres, hkw, readFiles, markdownCall2,
        checkKwargs, bindMdOpts, getStrKw, getStrListKw, getMapKw, String.join,
        buildMarkdown]
    · rfl

/-- Witness for C7: the fresh adapter under the zero-file resolver. -/
theorem empty_match_schema_and_read_witness :
    (MarkdownSource._get_schema wRes0 wSrcFresh).1.npartitions = 0 ∧
    (MarkdownSource._get_schema wRes0 wSrcFresh).2._files = some [] ∧
    ∃ md, (MarkdownSource.read wRes0 wSrcFresh).1 = Except.ok md ∧
      Markdown.get_markdown md = "" :=
  empty_match_schema_and_read wRes0 wSrcFresh rfl rfl rfl

/-- C10: when the md_kwargs mapping contains the key "urlpath" (its
other keys being valid optional parameters), `read` reaches the call
`Markdown(string, self._urlpath, **self.md_kwargs)` with `urlpath`
already bound positionally and fails with the multiple-values
TypeError instead of constructing a Document. -/
theorem read_fails_on_urlpath_kwarg (resolve : Resolver) (s : MarkdownSource)
    (fs : List OpenFile) (cs : List String)
    (hf : s._files = some fs)
    (hr : fs.map OpenFile.readResult = cs.map Except.ok)
    (hu : (s.md_kwargs.lookup "urlpath").isSome = true)
    (hks : ∀ kv ∈ s.md_kwargs, kv.1 = "urlpath" ∨ kv.1 ∈ mdOptNames) :
    (MarkdownSource.read resolve s).1 =
      Except.error (PyError.typeError "got multiple values for argument urlpath") := by
  have hs : (MarkdownSource._get_schema resolve s).2 = s :=
    congrArg Prod.snd (get_schema_resolved_eq resolve s fs hf)
  simp [MarkdownSource.read, hs, hf, readFiles_ok fs cs hr, markdownCall2,
    checkKwargs_dup s.md_kwargs hu hks]

/-- Witness for C10: the resolved adapter whose md_kwargs carry an
explicit urlpath entry. -/
theorem read_fails_on_urlpath_kwarg_witness :
    (MarkdownSource.read wRes0 wSrcKw).1 =
      Except.error (PyError.typeError "got multiple values for argument urlpath") :=
  read_fails_on_urlpath_kwarg wRes0 wSrcKw [wFile1, wFile2] ["alpha", "beta"]
    rfl rfl rfl (by decide)

end IntakeMd
